import Mathlib

/-
  Verification of the client-side authentication session manager of the
  pdfchat.ai frontend (src/frontend/src/contexts/AuthContext.tsx and the
  useStorage hook).  Each definition below is a shallow embedding of the
  corresponding TypeScript function; doc comments cite the source symbol.
-/

namespace PdfChat

/-! ## Storage surfaces and client state -/

/-- User profile, from the `User` interface of AuthContext.tsx. -/
structure UserProfile where
  id : Nat
  username : String
  email : Option String
  is_active : Bool
  has_openai_api_key : Bool
  deriving DecidableEq

/-- Replace-or-append for a keyed list: models `CookieUtils.setCookie` /
`localStorage.setItem`, which overwrite an existing entry of the same name
and otherwise add a new one. -/
def listSet (l : List (String × String)) (k v : String) : List (String × String) :=
  if l.any (fun p => p.1 = k) then
    l.map (fun p => if p.1 = k then (k, v) else p)
  else
    l ++ [(k, v)]

/-- Remove a keyed entry: models `CookieUtils.removeCookie` (expiring the
cookie) and `localStorage.removeItem`. -/
def listRemove (l : List (String × String)) (k : String) : List (String × String) :=
  l.filter (fun p => p.1 ≠ k)

/-- The client-side mutable state the session manager touches: the cookie
jar (`document.cookie`), the durable store (`localStorage`), the React
`token` state held by `useStorage`, the in-memory `user` profile, the axios
default Authorization header, and the refresh timer handle. -/
structure ClientState where
  cookies : List (String × String)
  localStore : List (String × String)
  tokenState : Option String
  user : Option UserProfile
  axiosDefaultAuth : Option String
  refreshTimer : Option Nat
  deriving DecidableEq

/-- JSON encoding of a token string, as produced by `JSON.stringify` on a
string value when `useStorage.setValue` persists it. -/
def encodeJsonString (t : String) : String := "\"" ++ t ++ "\""

/-- `useStorage.setValue` instantiated at key `auth_token` (the token
store's write): saves state, writes `localStorage`, writes the cookie. -/
def setToken (s : ClientState) (tok : String) : ClientState :=
  { s with
      tokenState := some tok,
      localStore := listSet s.localStore "auth_token" (encodeJsonString tok),
      cookies := listSet s.cookies "auth_token" (encodeJsonString tok) }

/-- `useStorage.removeValue` instantiated at key `auth_token` (the token
store's `removeToken`): resets state to the initial value (null), removes
the `localStorage` entry, removes the cookie. -/
def removeValue (s : ClientState) : ClientState :=
  { s with
      tokenState := none,
      localStore := listRemove s.localStore "auth_token",
      cookies := listRemove s.cookies "auth_token" }

/-- `clearAllAuthData` (AuthContext.tsx lines 66-89): calls `removeToken`,
clears the `user` state, deletes the axios default Authorization header,
then iterates over `document.cookie` and expires EVERY cookie (the source
comment calls this a belt and suspenders approach), and finally removes the
`auth_token` entry from `localStorage` once more. -/
def clearAllAuthData (s : ClientState) : ClientState :=
  let s1 := removeValue s
  let s2 := { s1 with user := none, axiosDefaultAuth := none }
  let s3 := { s2 with cookies := [] }
  { s3 with localStore := listRemove s3.localStore "auth_token" }

/-- `logout` (AuthContext.tsx lines 733-743): clears the refresh timer and
then calls `clearAllAuthData`. -/
def logout (s : ClientState) : ClientState :=
  clearAllAuthData { s with refreshTimer := none }

/-- `isAuthenticated: !!user` from the provider value. -/
def isAuthenticated (s : ClientState) : Bool := s.user.isSome

/-! ## Token store read (useStorage.getStoredValue) -/

/-- Model of `JSON.parse` restricted to the shapes the token store writes:
the literal `null`, or a JSON string literal with no inner quote or
backslash.  Scans the characters after an opening quote; succeeds only when
the closing quote is the final character.  Returns `none` where
`JSON.parse` would throw. -/
def jsonStrBody : List Char → Option (List Char)
  | [] => none
  | [c] => if c = '"' then some [] else none
  | c :: rest =>
      if c = '"' ∨ c = '\\' then none
      else (jsonStrBody rest).map (fun cs => c :: cs)

/-- Parse a persisted token entry.  Outer `none` means `JSON.parse` throws;
`some none` is a parsed JSON `null`; `some (some t)` is a token string. -/
def parseTokenJson (s : String) : Option (Option String) :=
  if s = "null" then some none
  else
    match s.data with
    | '"' :: rest => (jsonStrBody rest).map (fun cs => some (String.mk cs))
    | _ => none

/-- The durable-store leg of `getStoredValue`: read `localStorage`, parse
if present, otherwise the initial value (null); a parse throw is caught and
also yields the initial value. -/
def readDurable (durable : Option String) : Option String :=
  match durable with
  | some s =>
      match parseTokenJson s with
      | some v => v
      | none => none
  | none => none

/-- `getStoredValue` of useStorage (lines 1311-1327 of the concatenated
source), instantiated at the token store (key `auth_token`, cookies
enabled, initial value null).  The cookie is consulted first; a truthy
(present, nonempty) cookie is returned through `JSON.parse`, and when that
parse throws the surrounding catch returns the initial value WITHOUT ever
reading the durable store; only an absent or empty cookie falls through to
`localStorage`.  The function performs no writes. -/
def getStoredValue (cookie durable : Option String) : Option String :=
  match cookie with
  | some c =>
      if c = "" then readDurable durable
      else
        match parseTokenJson c with
        | some v => v
        | none => none
  | none => readDurable durable

/-- `getStoredValue` together with the post-read storage surfaces: the
source function only reads, so both surfaces come back unchanged. -/
def getStoredValueRun (cookie durable : Option String) :
    Option String × Option String × Option String :=
  (getStoredValue cookie durable, cookie, durable)

/-! ## Token decoding and the checkAuth expiry test -/

/-- Result of `jwt_decode` on a stored token: either the payload claims or
a thrown decode error. -/
inductive DecodeResult where
  | payload (sub : String) (exp : Int)
  | malformed
  deriving DecidableEq

/-- The action `checkAuth` (AuthContext.tsx lines 305-325) takes for its
local token validation, and likewise `clearStaleTokenOnStartup` (lines
389-403): no token, malformed token (decode throws, auth cleared), expired
token (the source tests `decodedToken.exp < currentTime`, auth cleared), or
proceed to the profile fetch. -/
inductive CheckAuthAction where
  | noToken
  | clearedMalformed
  | clearedExpired
  | proceed
  deriving DecidableEq

/-- The local token validation of `checkAuth`, with `now` the wall clock at
call time (the source's `Date.now() / 1000`). -/
def checkAuthClassify (token : Option DecodeResult) (now : Int) : CheckAuthAction :=
  match token with
  | none => .noToken
  | some .malformed => .clearedMalformed
  | some (.payload _ exp) =>
      if exp < now then .clearedExpired else .proceed

/-! ## refreshToken -/

/-- The JS template literal `Bearer dollar-brace token brace` applied to a
possibly-null variable renders null as the text `null`. -/
def bearerText : Option String → String
  | some t => t
  | none => "null"

/-- Outcome of one full run of `refreshToken` (AuthContext.tsx lines
92-116): whether it returned true, the client state after it ran, and how
many network calls to the refresh endpoint it issued. -/
structure RefreshRun where
  ok : Bool
  newState : ClientState
  networkCalls : Nat
  deriving DecidableEq

/-- `refreshToken`: returns false at once when the closure-captured `token`
is null; otherwise posts to the refresh endpoint (`refreshNet` is the
network's answer: `some newTok` for a 200 with that access_token, `none`
for an error or timeout).  On success it calls `setToken` and updates the
axios default header with the NEW token; on error it returns false without
touching stored state. -/
def refreshToken (closureToken refreshNet : Option String) (s : ClientState) : RefreshRun :=
  match closureToken with
  | none => { ok := false, newState := s, networkCalls := 0 }
  | some _ =>
      match refreshNet with
      | some newTok =>
          { ok := true,
            newState :=
              { setToken s newTok with
                  axiosDefaultAuth := some ("Bearer " ++ newTok) },
            networkCalls := 1 }
      | none => { ok := false, newState := s, networkCalls := 1 }

/-- The continuation of `refreshToken` after its network await resolves
with `access_token`: `setToken(access_token)` and the axios default header
update, exactly as the source runs them, with no check whether the session
is still live. -/
def refreshTokenResume (access_token : String) (s : ClientState) : ClientState :=
  { setToken s access_token with
      axiosDefaultAuth := some ("Bearer " ++ access_token) }

/-- Ghost state for overlapping refresh invocations: how many refresh
network calls are currently awaiting a response and how many have been
issued in total. -/
structure RefreshInFlight where
  inFlight : Nat
  calls : Nat
  deriving DecidableEq

/-- The synchronous prefix of `refreshToken` up to its await: check the
closure token (return false at once when null, issuing no call), otherwise
issue the network call.  The source consults no in-flight flag here, so the
ghost state is read by nothing and only counts. -/
def refreshBegin (closureToken : Option String) (g : RefreshInFlight) :
    Option RefreshInFlight :=
  match closureToken with
  | none => none
  | some _ => some { inFlight := g.inFlight + 1, calls := g.calls + 1 }

/-- n further invocations of the prefix of `refreshToken`, back to back,
before any response arrives (an invocation that declines to call the
network leaves the ghost state unchanged). -/
def runConcurrentRefreshBegins (closureToken : Option String) :
    Nat → RefreshInFlight → RefreshInFlight
  | 0, g => g
  | n + 1, g =>
      runConcurrentRefreshBegins closureToken n ((refreshBegin closureToken g).getD g)

/-! ## The response interceptor and the request lifecycle -/

/-- An axios request as the interceptor sees it: its Authorization header
and the `_retry` flag the interceptor sets. -/
structure AxiosRequest where
  authHeader : Option String
  retryFlag : Bool
  deriving DecidableEq

/-- An axios error: `noResponse` covers `ECONNABORTED` and a missing
`error.response`; otherwise `status` is the HTTP status. -/
structure HttpError where
  noResponse : Bool
  status : Nat
  deriving DecidableEq

/-- What the response interceptor's error handler resolves to. -/
inductive InterceptorOutcome where
  | resubmit (req : AxiosRequest)
  | rejectNormalizedTimeout
  | rejectAuthCleared
  | rejectOriginal
  deriving DecidableEq

/-- One run of the interceptor's error handler: its outcome, the client
state afterwards, and the number of refresh network calls it triggered. -/
structure InterceptorRun where
  outcome : InterceptorOutcome
  state : ClientState
  refreshCalls : Nat
  deriving DecidableEq

/-- The error handler of `responseInterceptor` (AuthContext.tsx lines
171-214).  Timeouts and missing responses are normalized and rejected
first.  On a 401 whose request is not yet flagged, the flag is set and
`refreshToken` is awaited; on refresh success the source assigns
`originalRequest.headers.Authorization` from the closure-captured `token`
variable (the pre-refresh token) and resubmits; on refresh failure it runs
`clearAllAuthData` and rejects with an auth-cleared error.  Any other
error, including a 401 on an already-flagged request, is rejected
unchanged. -/
def responseInterceptorError (closureToken refreshNet : Option String)
    (req : AxiosRequest) (e : HttpError) (s : ClientState) : InterceptorRun :=
  if e.noResponse then
    { outcome := .rejectNormalizedTimeout, state := s, refreshCalls := 0 }
  else if e.status = 401 ∧ req.retryFlag = false then
    let r := refreshToken closureToken refreshNet s
    if r.ok then
      { outcome := .resubmit
          { req with
              retryFlag := true,
              authHeader := some ("Bearer " ++ bearerText closureToken) },
        state := r.newState,
        refreshCalls := r.networkCalls }
    else
      { outcome := .rejectAuthCleared,
        state := clearAllAuthData r.newState,
        refreshCalls := r.networkCalls }
  else
    { outcome := .rejectOriginal, state := s, refreshCalls := 0 }

/-- The network's answer to one submission of a request. -/
inductive AttemptResult where
  | success
  | fail (e : HttpError)
  deriving DecidableEq

/-- Drive one request through the pipeline and count its submissions:
submit (one submission), and when the response errors run the interceptor;
a resubmit outcome submits again and recurses on the (flagged) request,
any rejection ends the lifecycle.  `serve` gives the network's answer to
the idx-th submission; `fuel` bounds the recursion without constraining
the counted behavior. -/
def runRequest (serve : Nat → AttemptResult) (closureToken refreshNet : Option String) :
    Nat → AxiosRequest → ClientState → Nat → Nat
  | 0, _, _, _ => 0
  | fuel + 1, req, s, idx =>
      match serve idx with
      | .success => 1
      | .fail e =>
          match (responseInterceptorError closureToken refreshNet req e s).outcome with
          | .resubmit req2 =>
              1 + runRequest serve closureToken refreshNet fuel req2
                    (responseInterceptorError closureToken refreshNet req e s).state
                    (idx + 1)
          | _ => 1

/-! ## fetchUserProfile and its single-flight guard -/

/-- Ghost state for the profile fetch guard: the `fetchingUserRef` flag and
a count of GET /users/me network calls. -/
structure FetchGuard where
  fetchingUser : Bool
  userMeCalls : Nat
  deriving DecidableEq

/-- How the synchronous prefix of `fetchUserProfile` ends. -/
inductive FetchBegin where
  | guarded
  | issued (g : FetchGuard)
  deriving DecidableEq

/-- The synchronous prefix of `fetchUserProfile` (AuthContext.tsx lines
251-277) up to its await: `if (!token || fetchingUserRef.current) return
null` — a caller arriving with no token or while a fetch is in flight gets
null immediately; otherwise the flag is set and the network call issued. -/
def fetchUserProfileBegin (token : Option String) (g : FetchGuard) : FetchBegin :=
  match token with
  | none => .guarded
  | some _ =>
      if g.fetchingUser then .guarded
      else .issued { fetchingUser := true, userMeCalls := g.userMeCalls + 1 }

/-- n callers invoking the prefix of `fetchUserProfile` back to back before
any response arrives; returns the final ghost state and how many callers
were turned away with null. -/
def runFetchBegins (token : Option String) : Nat → FetchGuard → FetchGuard × Nat
  | 0, g => (g, 0)
  | n + 1, g =>
      match fetchUserProfileBegin token g with
      | .guarded =>
          let r := runFetchBegins token n g
          (r.1, r.2 + 1)
      | .issued g1 => runFetchBegins token n g1

/-! ## The login flow -/

/-- The network's answer to one iteration of the login retry loop. -/
inductive LoginAttemptResult where
  | ok (access_token : String)
  | err (e : HttpError)
  deriving DecidableEq

/-- How the login retry loop ends: a token after some number of network
attempts, a thrown error after the final attempt, or the unreachable
post-loop throw when the loop exits with no response. -/
inductive LoginLoopResult where
  | gotToken (tok : String) (attemptsMade : Nat)
  | threw (e : HttpError) (attemptsMade : Nat)
  | allFailed (attemptsMade : Nat)
  deriving DecidableEq

/-- The `while (attempts < maxAttempts && !loginResponse)` loop of `login`
(AuthContext.tsx lines 439-464): each iteration increments `attempts` and
posts the credentials; ANY caught error on a non-final attempt sleeps 1s
and loops again, and an error on the final attempt is thrown.  `remaining`
is `maxAttempts - attempts`. -/
def loginLoopGo (serve : Nat → LoginAttemptResult) (maxAttempts : Nat) :
    Nat → Nat → LoginLoopResult
  | 0, attempts => .allFailed attempts
  | remaining + 1, attempts =>
      match serve attempts with
      | .ok tok => .gotToken tok (attempts + 1)
      | .err e =>
          if attempts + 1 ≥ maxAttempts then .threw e (attempts + 1)
          else loginLoopGo serve maxAttempts remaining (attempts + 1)

/-- The login retry loop with the source's constants: `maxAttempts = 2`,
starting from zero attempts. -/
def loginLoop (serve : Nat → LoginAttemptResult) : LoginLoopResult :=
  loginLoopGo serve 2 2 0

/-- What one invocation of `fetchUserProfile` during login produces, as
login's catch blocks see it: a profile, a null from the guard (which login
turns into a thrown plain Error carrying no response and no code), a
network or timeout or cancellation failure (ERR_CANCELED, ECONNABORTED,
ERR_NETWORK, or no response property), or an HTTP error with a status. -/
inductive FetchOutcome where
  | profile (u : UserProfile)
  | guardedNull
  | netErr
  | httpErr (status : Nat)
  deriving DecidableEq

/-- How the profile phase of `login` ends. -/
inductive LoginResult where
  | fullSuccess (u : UserProfile)
  | partialSuccess (u : UserProfile)
  | thrownAuthFailed
  | thrownProfileFailed
  deriving DecidableEq

/-- The minimal profile `login` synthesizes on a partial success:
`id 0, the entered username, null email, active, no api key`. -/
def minimalUser (username : String) : UserProfile :=
  { id := 0, username := username, email := none,
    is_active := true, has_openai_api_key := false }

/-- The outer catch of login's profile phase (AuthContext.tsx lines
529-567) classifying the retry's failure: a network-flavored error or the
thrown plain Error for a null profile (it has no response property) yields
the partial-success return with the minimal profile set as user; a 401
clears all auth data and throws an authentication error; any other HTTP
error throws without touching the stored token. -/
def classifyProfileFailure (username : String) (f : FetchOutcome) (s : ClientState) :
    LoginResult × ClientState :=
  match f with
  | .profile u => (.fullSuccess u, { s with user := some u })
  | .netErr =>
      (.partialSuccess (minimalUser username),
       { s with user := some (minimalUser username) })
  | .guardedNull =>
      (.partialSuccess (minimalUser username),
       { s with user := some (minimalUser username) })
  | .httpErr st =>
      if st = 401 then (.thrownAuthFailed, clearAllAuthData s)
      else (.thrownProfileFailed, s)

/-- The profile phase of `login` (AuthContext.tsx lines 484-573), entered
after the token was written: fetch the profile; a profile sets the user and
returns full success; any failure (thrown error or null) is caught, the
fetch is retried once after a delay; the retry's profile sets the user and
returns full success, and the retry's failure is classified by the outer
catch. -/
def loginProfilePhase (username : String) (first retry : FetchOutcome)
    (s : ClientState) : LoginResult × ClientState :=
  match first with
  | .profile u => (.fullSuccess u, { s with user := some u })
  | .guardedNull =>
      (match retry with
       | .profile u => (.fullSuccess u, { s with user := some u })
       | f => classifyProfileFailure username f s)
  | .netErr =>
      (match retry with
       | .profile u => (.fullSuccess u, { s with user := some u })
       | f => classifyProfileFailure username f s)
  | .httpErr _ =>
      (match retry with
       | .profile u => (.fullSuccess u, { s with user := some u })
       | f => classifyProfileFailure username f s)

/-! ## Concrete inputs used by counterexamples and evaluations -/

/-- A logged-in client state holding token `oldTok` on every surface. -/
def interceptorDemoState : ClientState :=
  { cookies := [("auth_token", "\"oldTok\"")],
    localStore := [("auth_token", "\"oldTok\"")],
    tokenState := some "oldTok",
    user := none,
    axiosDefaultAuth := some "Bearer oldTok",
    refreshTimer := none }

/-- A logged-in client state with a user profile and a pending refresh
timer, holding token `t`. -/
def logoutDemoState : ClientState :=
  { cookies := [("auth_token", "\"t\"")],
    localStore := [("auth_token", "\"t\"")],
    tokenState := some "t",
    user := some (minimalUser "alice"),
    axiosDefaultAuth := some "Bearer t",
    refreshTimer := some 7 }

/-- A logged-in client state that also holds a cookie and a durable-store
entry unrelated to the session key. -/
def teardownDemoState : ClientState :=
  { cookies := [("auth_token", "\"t\""), ("theme", "dark")],
    localStore := [("auth_token", "\"t\""), ("draft", "hello")],
    tokenState := some "t",
    user := some (minimalUser "alice"),
    axiosDefaultAuth := some "Bearer t",
    refreshTimer := some 7 }

/-- A network in which the first login attempt is rejected with 401
(invalid credentials) and every later attempt succeeds. -/
def serve401ThenOk : Nat → LoginAttemptResult
  | 0 => .err { noResponse := false, status := 401 }
  | _ + 1 => .ok "tok2"

/-- A network in which the first attempt fails with a timeout (no
response) and every later attempt succeeds. -/
def serveNetErrThenOk : Nat → LoginAttemptResult
  | 0 => .err { noResponse := true, status := 0 }
  | _ + 1 => .ok "tok3"

/-- The credential-exchange call of `register` (AuthContext.tsx lines
598-611): a single `axios.post` to the register endpoint with no retry
loop of any kind — one network attempt, whose failure is thrown at
once. -/
def registerAttempt (serve : Nat → LoginAttemptResult) : LoginLoopResult :=
  match serve 0 with
  | .ok tok => .gotToken tok 1
  | .err e => .threw e 1

/-! ## Helper lemmas -/

theorem listRemove_idem (l : List (String × String)) (k : String) :
    listRemove (listRemove l k) k = listRemove l k := by
  induction l with
  | nil => rfl
  | cons a t ih =>
      by_cases h : a.1 = k
      · simp [listRemove, h] at ih ⊢
      · simp [listRemove, h] at ih ⊢

theorem interceptor_resubmit_flag (ct rn : Option String) (req : AxiosRequest)
    (e : HttpError) (s : ClientState) (req2 : AxiosRequest)
    (h : (responseInterceptorError ct rn req e s).outcome = InterceptorOutcome.resubmit req2) :
    req2.retryFlag = true := by
  simp only [responseInterceptorError] at h
  split_ifs at h <;> simp_all
  exact (congrArg AxiosRequest.retryFlag h.symm)

theorem interceptor_flagged_no_resubmit (ct rn : Option String) (req : AxiosRequest)
    (e : HttpError) (s : ClientState) (req2 : AxiosRequest)
    (hflag : req.retryFlag = true) :
    (responseInterceptorError ct rn req e s).outcome ≠ InterceptorOutcome.resubmit req2 := by
  simp only [responseInterceptorError]
  split_ifs <;> simp_all

theorem runRequest_flagged_le_one (serve : Nat → AttemptResult) (ct rn : Option String)
    (fuel : Nat) (req : AxiosRequest) (s : ClientState) (idx : Nat)
    (h : req.retryFlag = true) :
    runRequest serve ct rn fuel req s idx ≤ 1 := by
  cases fuel with
  | zero => simp [runRequest]
  | succ n =>
      simp only [runRequest]
      cases hserve : serve idx with
      | success => exact le_refl 1
      | fail e =>
          rcases ho : (responseInterceptorError ct rn req e s).outcome with req2 | _ | _ | _

          · exact absurd ho (interceptor_flagged_no_resubmit ct rn req e s req2 h)
          all_goals simp [ho]

theorem runRequest_le_two (serve : Nat → AttemptResult) (ct rn : Option String)
    (fuel : Nat) (req : AxiosRequest) (s : ClientState) (idx : Nat) :
    runRequest serve ct rn fuel req s idx ≤ 2 := by
  cases fuel with
  | zero => simp [runRequest]
  | succ n =>
      simp only [runRequest]
      cases hserve : serve idx with
      | success => exact one_le_two
      | fail e =>
          rcases ho : (responseInterceptorError ct rn req e s).outcome with req2 | _ | _ | _
          · have h2 := interceptor_resubmit_flag ct rn req e s req2 ho
            have h3 := runRequest_flagged_le_one serve ct rn n req2
                (responseInterceptorError ct rn req e s).state (idx + 1) h2
            simp only [ho]
            omega
          all_goals simp [ho]

theorem runFetchBegins_guarded (tok : String) (n m : Nat) :
    runFetchBegins (some tok) n { fetchingUser := true, userMeCalls := m }
      = ({ fetchingUser := true, userMeCalls := m }, n) := by
  induction n with
  | zero => rfl
  | succ k ih => simp [runFetchBegins, fetchUserProfileBegin, ih]

/-! ## Claim theorems -/

/-- C1: on a 401 whose request was not yet retried and whose refresh
succeeds, the interceptor is supposed to re-attach the NEW token, but the
source assigns the closure-captured pre-refresh token.  Evaluated at the
failing input: closure token `oldTok`, refresh returns `newTok`; the
refresh stores `newTok`, yet the resubmitted request carries
`Bearer oldTok`. -/
theorem stale_token_reattached_on_retry :
    (responseInterceptorError (some "oldTok") (some "newTok")
        { authHeader := some "Bearer oldTok", retryFlag := false }
        { noResponse := false, status := 401 } interceptorDemoState).outcome
      = InterceptorOutcome.resubmit { authHeader := some "Bearer oldTok", retryFlag := true } ∧
    (responseInterceptorError (some "oldTok") (some "newTok")
        { authHeader := some "Bearer oldTok", retryFlag := false }
        { noResponse := false, status := 401 } interceptorDemoState).state.tokenState
      = some "newTok" ∧
    "Bearer oldTok" ≠ "Bearer newTok" := by decide

/-- C2: a 401 triggers at most one refresh-and-replay.  Any fresh
(unflagged) request is submitted at most twice in total, whatever the
network answers; and the interceptor, given a 401 on an already-flagged
request, rejects the original error unchanged, with no refresh call and no
state change. -/
theorem retry_at_most_once (serve : Nat → AttemptResult) (ct rn : Option String)
    (fuel idx : Nat) (a : Option String) (s : ClientState) :
    runRequest serve ct rn fuel { authHeader := a, retryFlag := false } s idx ≤ 2 ∧
    ∀ (a2 : Option String) (s2 : ClientState),
      responseInterceptorError ct rn { authHeader := a2, retryFlag := true }
          { noResponse := false, status := 401 } s2
        = { outcome := InterceptorOutcome.rejectOriginal, state := s2, refreshCalls := 0 } := by
  refine ⟨runRequest_le_two serve ct rn fuel _ s idx, fun a2 s2 => ?_⟩
  simp [responseInterceptorError]

/-- C3 counterexample: with one refresh network call already in flight, a
further call to refreshToken issues a second network call instead of
awaiting the first — the claimed single-flight deduplication does not
exist in the source. -/
theorem refresh_inflight_duplicate_call :
    refreshBegin (some "tok") { inFlight := 0, calls := 0 }
      = some { inFlight := 1, calls := 1 } ∧
    refreshBegin (some "tok") { inFlight := 1, calls := 1 }
      = some { inFlight := 2, calls := 2 } := by decide

/-- C3 amended: refreshToken has no single-flight guard — n overlapping
invocations with a token present issue n refresh network calls, one each,
regardless of how many are already in flight. -/
theorem refresh_no_single_flight (tok : String) (n : Nat) (g : RefreshInFlight) :
    (runConcurrentRefreshBegins (some tok) n g).calls = g.calls + n := by
  induction n generalizing g with
  | zero => simp [runConcurrentRefreshBegins]
  | succ k ih =>
      simp only [runConcurrentRefreshBegins, refreshBegin, Option.getD_some]
      rw [ih]
      show g.calls + 1 + k = g.calls + (k + 1)
      omega

/-- C4 counterexample: a token whose expiry equals the current wall-clock
time is NOT treated as expired — checkAuth proceeds, although
now >= expiresAt holds, refuting the claimed closed lower bound. -/
theorem expiry_boundary_not_expired :
    checkAuthClassify (some (DecodeResult.payload "alice" 1000)) 1000
      = CheckAuthAction.proceed ∧
    (1000 : Int) ≥ 1000 := by decide

/-- C4 amended: the expiry test is a strict bound — the token is classified
expired exactly when now > expiresAt, and a token exactly at its expiry
boundary proceeds as valid. -/
theorem expiry_strict_bound (sub : String) (exp now : Int) :
    (checkAuthClassify (some (DecodeResult.payload sub exp)) now
        = CheckAuthAction.clearedExpired ↔ now > exp) ∧
    checkAuthClassify (some (DecodeResult.payload sub exp)) exp
      = CheckAuthAction.proceed := by
  constructor
  · simp only [checkAuthClassify]
    split_ifs with h
    · exact iff_of_true rfl h
    · exact iff_of_false (by simp) h
  · simp [checkAuthClassify]

/-- C5 counterexample: the cookie holds an unparsable value `x` while the
durable store holds a parsable token — read returns null without falling
back to the durable store, and neither surface is cleared. -/
theorem unparsable_cookie_no_fallback :
    getStoredValueRun (some "x") (some "\"tok\"")
      = (none, some "x", some "\"tok\"") ∧
    parseTokenJson "\"tok\"" = some (some "tok") := by decide

/-- C5 amended: read prefers a present nonempty cookie — a parsable cookie
value is returned; an unparsable cookie makes read return null WITHOUT
consulting the durable store; only an absent cookie falls back to the
durable store; and read never modifies either surface (no self-healing
clear). -/
theorem read_prefers_cookie_no_self_heal (c d : String) :
    (∀ v, parseTokenJson c = some v → ¬ c = "" → getStoredValue (some c) (some d) = v) ∧
    (parseTokenJson c = none → ¬ c = "" → getStoredValue (some c) (some d) = none) ∧
    getStoredValue none (some d) = readDurable (some d) ∧
    (∀ co du, getStoredValueRun co du = (getStoredValue co du, co, du)) := by
  refine ⟨?_, ?_, rfl, fun _ _ => rfl⟩
  · intro v hv hc
    simp [getStoredValue, hc, hv]
  · intro hv hc
    simp [getStoredValue, hc, hv]

/-- Witness for the C5 amended theorem at cookie `y` (unparsable) and
durable value a JSON string. -/
theorem read_prefers_cookie_no_self_heal_witness :
    getStoredValue (some "y") (some "\"a\"") = none :=
  (read_prefers_cookie_no_self_heal "y" "\"a\"").2.1 (by decide) (by decide)

/-- C6 counterexample, refuting both halves of the claim: the first login
attempt is rejected with 401 (rejected credentials), yet the loop issues a
second network attempt and returns its token — 4xx responses are retried,
not surfaced after the first attempt; and register's credential exchange,
failing with a timeout on its first attempt, throws after that single
attempt instead of retrying, although a second attempt would have
succeeded. -/
theorem login_retries_after_401 :
    loginLoop serve401ThenOk = LoginLoopResult.gotToken "tok2" 2 ∧
    registerAttempt serveNetErrThenOk
      = LoginLoopResult.threw { noResponse := true, status := 0 } 1 ∧
    serveNetErrThenOk 1 = LoginAttemptResult.ok "tok3" := by decide

/-- C6 amended: the login credential-exchange loop retries once, after a
fixed 1s delay, on ANY failure of the first attempt — including
rejected-credential 4xx responses — and makes at most 2 attempts, surfacing
only the final attempt's error; the register credential-exchange call is
issued exactly once and never retried — any failure, network or 4xx, is
surfaced after the first attempt. -/
theorem login_retry_any_failure (serve : Nat → LoginAttemptResult) :
    (match serve 0, serve 1 with
     | .ok tok, _ => loginLoop serve = .gotToken tok 1
     | .err _, .ok tok => loginLoop serve = .gotToken tok 2
     | .err _, .err e => loginLoop serve = .threw e 2) ∧
    (match serve 0 with
     | .ok tok => registerAttempt serve = .gotToken tok 1
     | .err e => registerAttempt serve = .threw e 1) := by
  constructor
  · rcases h0 : serve 0 with tok0 | e0
    · simp [loginLoop, loginLoopGo, h0]
    · rcases h1 : serve 1 with tok1 | e1
      · simp [loginLoop, loginLoopGo, h0, h1]
      · simp [loginLoop, loginLoopGo, h0, h1]
  · rcases h0 : serve 0 with tok0 | e0
    · simp [registerAttempt, h0]
    · simp [registerAttempt, h0]

/-- C7: when the credential exchange succeeded and both profile fetch
attempts fail with a network or timeout error (no HTTP response), login
returns the partial-success result with the synthesized minimal profile,
the state becomes authenticated, nothing is thrown, and the stored token is
untouched. -/
theorem login_partial_success_on_network_profile_failure
    (username : String) (s : ClientState) :
    loginProfilePhase username .netErr .netErr s
      = (.partialSuccess (minimalUser username),
         { s with user := some (minimalUser username) }) ∧
    isAuthenticated (loginProfilePhase username .netErr .netErr s).2 = true ∧
    (loginProfilePhase username .netErr .netErr s).2.tokenState = s.tokenState := by
  refine ⟨rfl, ?_, rfl⟩
  simp [loginProfilePhase, classifyProfileFailure, isAuthenticated]

/-- C8 counterexample: a first caller issues the single GET /users/me
network call, and a second caller arriving while it is in flight is turned
away with null — it does not receive the in-flight fetch's result. -/
theorem concurrent_profile_fetch_gets_null :
    fetchUserProfileBegin (some "tok") { fetchingUser := false, userMeCalls := 0 }
      = FetchBegin.issued { fetchingUser := true, userMeCalls := 1 } ∧
    fetchUserProfileBegin (some "tok") { fetchingUser := true, userMeCalls := 1 }
      = FetchBegin.guarded := by decide

/-- C8 amended: for n+1 concurrent callers under the same token, exactly
one GET /users/me network call is issued, and the n callers that arrive
while it is in flight each receive null immediately rather than the
in-flight result. -/
theorem profile_fetch_single_flight_null (tok : String) (n c : Nat) :
    runFetchBegins (some tok) (n + 1) { fetchingUser := false, userMeCalls := c }
      = ({ fetchingUser := true, userMeCalls := c + 1 }, n) := by
  simp [runFetchBegins, fetchUserProfileBegin, runFetchBegins_guarded]

/-- C9 counterexample: logout empties the token store, but a refresh whose
network response arrives afterwards runs its unconditional write path and
re-populates both the state and the cookie with the refreshed token. -/
theorem refresh_after_logout_repopulates_store :
    (logout logoutDemoState).tokenState = none ∧
    (logout logoutDemoState).cookies = [] ∧
    (refreshTokenResume "newTok" (logout logoutDemoState)).tokenState = some "newTok" ∧
    (refreshTokenResume "newTok" (logout logoutDemoState)).cookies
      = [("auth_token", "\"newTok\"")] := by decide

/-- C9 amended: a refresh that completes after logout has torn the session
down re-populates the Token Store: the write path performs no staleness
check, so from the empty post-logout store it writes the refreshed token
into the state and the cookie surface. -/
theorem refresh_resume_unconditional_write (s : ClientState) (newTok : String) :
    (logout s).tokenState = none ∧
    (logout s).cookies = [] ∧
    (refreshTokenResume newTok (logout s)).tokenState = some newTok ∧
    (refreshTokenResume newTok (logout s)).cookies
      = [("auth_token", encodeJsonString newTok)] := by
  exact ⟨rfl, rfl, rfl, rfl⟩

/-- C10 counterexample: a cookie unrelated to the session key pattern
(`theme`) is present before teardown and gone afterwards — teardown is not
bounded to session cookies. -/
theorem teardown_clears_unrelated_cookie :
    ("theme", "dark") ∈ teardownDemoState.cookies ∧
    ("theme", "dark") ∉ (clearAllAuthData teardownDemoState).cookies := by decide

/-- C10 amended: teardown removes the session value from both storage
surfaces and additionally expires EVERY cookie, including those not
matching the session key pattern; durable-store entries other than the
session key are left unchanged, and teardown is idempotent. -/
theorem teardown_clears_every_cookie (s : ClientState) :
    (clearAllAuthData s).cookies = [] ∧
    (clearAllAuthData s).tokenState = none ∧
    (clearAllAuthData s).user = none ∧
    (clearAllAuthData s).axiosDefaultAuth = none ∧
    (clearAllAuthData s).localStore = listRemove s.localStore "auth_token" ∧
    clearAllAuthData (clearAllAuthData s) = clearAllAuthData s := by
  refine ⟨rfl, rfl, rfl, rfl, ?_, ?_⟩
  · simpa [clearAllAuthData, removeValue] using
      listRemove_idem s.localStore "auth_token"
  · cases s
    simp [clearAllAuthData, removeValue, listRemove_idem]

end PdfChat
